import Mathlib

/-!
Shallow embedding of the weather-widget core (retry/backoff utility,
transient-error classifier, caching weather client, persistence adapter,
city-collection state machine) and proofs of the specification claims.
-/

set_option maxHeartbeats 1000000

namespace WeatherVision

/-! ## Error model (src/utils/errorHandler.ts) -/

/-- A JavaScript Error value, reduced to the fields the code inspects. -/
structure JSError where
  name : String
  message : String
deriving DecidableEq, Repr

/-- Whether the first character list starts with the second. -/
def startsWithChars : List Char → List Char → Bool
  | _, [] => true
  | [], _ :: _ => false
  | c :: cs, d :: ds => c == d && startsWithChars cs ds

/-- Whether the first character list contains the second as a
contiguous run. -/
def containsChars : List Char → List Char → Bool
  | s, sub =>
    if startsWithChars s sub then true
    else
      match s with
      | [] => false
      | _ :: cs => containsChars cs sub

/-- JS String.prototype.includes, modelled on the character list. -/
def jsIncludes (s sub : String) : Bool :=
  containsChars s.toList sub.toList

/-- JS String.prototype.toLowerCase, modelled character-wise (the
inputs of interest are ASCII). -/
def jsToLower (s : String) : String :=
  String.mk (s.toList.map Char.toLower)

/-- JS String.prototype.trim: strip leading and trailing whitespace. -/
def jsTrim (s : String) : String :=
  String.mk
    (((s.toList.dropWhile Char.isWhitespace).reverse.dropWhile Char.isWhitespace).reverse)

/-- isNetworkError from errorHandler.ts. -/
def isNetworkError (e : JSError) : Bool :=
  let message := jsToLower e.message
  jsIncludes message "network" ||
  jsIncludes message "fetch" ||
  jsIncludes message "connection" ||
  jsIncludes message "timeout" ||
  e.name == "NetworkError" ||
  e.name == "TypeError"

/-- isRateLimitError from errorHandler.ts. -/
def isRateLimitError (e : JSError) : Bool :=
  let message := jsToLower e.message
  jsIncludes message "rate limit" || jsIncludes message "429"

/-- isTransientError from errorHandler.ts: 401/404/invalid-key style
errors are classified non-retryable; otherwise network or rate-limit
errors are transient. -/
def isTransientError (e : JSError) : Bool :=
  let message := jsToLower e.message
  if jsIncludes message "invalid api key" ||
     jsIncludes message "unauthorized" ||
     jsIncludes message "401" ||
     jsIncludes message "not found" ||
     jsIncludes message "404" then
    false
  else
    isNetworkError e || isRateLimitError e

/-- getUserFriendlyMessage from errorHandler.ts (the WeatherWidgetError
branch is omitted: the errors modelled here are plain Error values). -/
def getUserFriendlyMessage (e : JSError) : String :=
  let message := jsToLower e.message
  if jsIncludes message "invalid api key" || jsIncludes message "unauthorized" ||
     jsIncludes message "401" then
    "Weather service configuration error. Please contact the website administrator."
  else if isNetworkError e then
    "Unable to connect to the weather service. Please check your internet connection."
  else if isRateLimitError e then
    "Too many requests. Please try again in a few moments."
  else if jsIncludes message "not found" || jsIncludes message "404" then
    "City not found. Please check the name and try again."
  else if jsIncludes message "storage" || jsIncludes message "quota" then
    "Unable to save settings. Your browser storage may be full."
  else if jsIncludes message "geolocation" || jsIncludes message "permission" then
    "Unable to access your location. Please check browser permissions."
  else
    "An unexpected error occurred. Please try again."

/-! ## Retry with exponential backoff (src/utils/errorHandler.ts, retryWithBackoff)

The execution of retryWithBackoff is modelled as a trace of observable
events (invocations of fn, onRetry callbacks, setTimeout waits) together
with the final outcome.  The operation fn is modelled as a function from
the attempt number (1-based) to that attempt's outcome. -/

/-- Observable events of one retryWithBackoff run. -/
inductive RetryEvent where
  /-- fn is invoked for attempt k. -/
  | call (k : ℕ)
  /-- onRetry is invoked with the attempt number and the error. -/
  | retryCb (k : ℕ) (e : JSError)
  /-- setTimeout waits for d milliseconds. -/
  | wait (d : ℚ)
deriving DecidableEq, Repr

/-- The outcome thrown by retryWithBackoff on failure: either the last
error raised by fn, or the generic fallback Error when the loop body
never ran (maxAttempts below 1). -/
inductive RetryFailure where
  | fromOp (e : JSError)
  | generic (msg : String)
deriving DecidableEq, Repr

/-- Options of retryWithBackoff; the source defaults are
maxAttempts 3, delayMs 1000, backoffMultiplier 2. -/
structure RetryOptions where
  maxAttempts : ℤ := 3
  delayMs : ℚ := 1000
  backoffMultiplier : ℚ := 2
deriving Repr

/-- The loop of retryWithBackoff, with fuel = number of loop iterations
still allowed (maxAttempts − attempt + 1) and k the current 1-based
attempt number.  fuel 0 corresponds to the loop condition failing with
lastError still undefined, which throws the generic Error. -/
def retryFrom {α : Type} (fn : ℕ → Except JSError α) (delayMs mult : ℚ) :
    ℕ → ℕ → List RetryEvent × Except RetryFailure α
  | 0, _ => ([], .error (.generic "All retry attempts failed"))
  | 1, k =>
    match fn k with
    | .ok a => ([.call k], .ok a)
    | .error e => ([.call k], .error (.fromOp e))
  | fuel + 2, k =>
    match fn k with
    | .ok a => ([.call k], .ok a)
    | .error e =>
      let rest := retryFrom fn delayMs mult (fuel + 1) (k + 1)
      (.call k :: .retryCb k e :: .wait (delayMs * mult ^ (k - 1)) :: rest.1, rest.2)

/-- retryWithBackoff from errorHandler.ts: run fn up to maxAttempts
times starting at attempt 1, waiting delayMs · mult^(attempt−1) between
attempts, and surface the last failure (or the generic Error when
maxAttempts is below 1, in which case fn is never invoked). -/
def retryWithBackoff {α : Type} (fn : ℕ → Except JSError α) (options : RetryOptions) :
    List RetryEvent × Except RetryFailure α :=
  retryFrom fn options.delayMs options.backoffMultiplier options.maxAttempts.toNat 1

/-- Number of times fn is invoked in a trace. -/
def countCalls (tr : List RetryEvent) : ℕ :=
  (tr.filter fun ev => match ev with | .call _ => true | _ => false).length

/-! ## Weather lookup client (src/services/WeatherService.ts)

JS numbers are modelled as rationals; wall-clock instants (Date.now())
as rational milliseconds.  The Map used as cache is modelled as an
association list keyed by the cache-key string. -/

/-- WeatherData from types/models.ts. -/
structure WeatherData where
  cityId : String
  temperature : ℚ
  feelsLike : ℚ
  description : String
  icon : String
  windSpeed : ℚ
  windDirection : String
  windDegrees : ℚ
  pressure : ℚ
  humidity : ℚ
  dewPoint : ℚ
  visibility : ℚ
  fetchedAt : ℚ
deriving DecidableEq, Repr

/-- CacheEntry from WeatherService.ts. -/
structure CacheEntry where
  data : WeatherData
  timestamp : ℚ
deriving DecidableEq, Repr

/-- CACHE_DURATION_MS = 10 * 60 * 1000. -/
def CACHE_DURATION_MS : ℚ := 10 * 60 * 1000

/-- The in-memory cache Map, as an association list. -/
def Cache := List (String × CacheEntry)

/-- Map.prototype.get. -/
def Cache.get (cache : Cache) (key : String) : Option CacheEntry :=
  List.lookup key cache

/-- Map.prototype.delete. -/
def Cache.del (cache : Cache) (key : String) : Cache :=
  List.filter (fun p => p.1 ≠ key) cache

/-- Map.prototype.set. -/
def Cache.set (cache : Cache) (key : String) (entry : CacheEntry) : Cache :=
  (key, entry) :: Cache.del cache key

/-- getFromCache from WeatherService.ts: return the entry when present
and not older than CACHE_DURATION_MS; delete it and return none when it
is strictly older.  The second component is the cache after the lookup. -/
def getFromCache (cache : Cache) (key : String) (now : ℚ) :
    Option WeatherData × Cache :=
  match Cache.get cache key with
  | none => (none, cache)
  | some entry =>
    if now - entry.timestamp > CACHE_DURATION_MS then
      (none, Cache.del cache key)
    else
      (some entry.data, cache)

/-- The cache key of getWeatherByCity: the string city-colon followed by
the lowercased (not trimmed) city name. -/
def cityCacheKey (cityName : String) : String :=
  "city:" ++ jsToLower cityName

/-- The cache key of getWeatherByCoordinates: the string coords-colon
followed by the stringified exact coordinate pair. -/
def coordsCacheKey (lat lon : ℚ) : String :=
  "coords:" ++ toString lat ++ "," ++ toString lon

/-- getWeatherByCity from WeatherService.ts, with the network fetch
abstracted into the fetchResult parameter: on a cache hit return the
cached data unchanged; on a miss, fetch, store the result under the key
with timestamp now, and return it.  The Bool records whether a fresh
fetch occurred. -/
def getWeatherByCity (cache : Cache) (now : ℚ) (cityName : String)
    (fetchResult : WeatherData) : WeatherData × Cache × Bool :=
  let cacheKey := cityCacheKey cityName
  match getFromCache cache cacheKey now with
  | (some cached, cache1) => (cached, cache1, false)
  | (none, cache1) => (fetchResult, Cache.set cache1 cacheKey ⟨fetchResult, now⟩, true)

/-- getWeatherByCoordinates from WeatherService.ts, abstracted the same
way as getWeatherByCity. -/
def getWeatherByCoordinates (cache : Cache) (now : ℚ) (lat lon : ℚ)
    (fetchResult : WeatherData) : WeatherData × Cache × Bool :=
  let cacheKey := coordsCacheKey lat lon
  match getFromCache cache cacheKey now with
  | (some cached, cache1) => (cached, cache1, false)
  | (none, cache1) => (fetchResult, Cache.set cache1 cacheKey ⟨fetchResult, now⟩, true)

/-! ## Wind direction (WeatherService.ts, degreesToDirection) -/

/-- JS Math.round: round half toward positive infinity. -/
def jsRound (q : ℚ) : ℤ :=
  ⌊q + 1 / 2⌋

/-- The 16-point compass table of degreesToDirection, starting at North
and proceeding clockwise. -/
def directions : List String :=
  ["N", "NNE", "NE", "ENE", "E", "ESE", "SE", "SSE",
   "S", "SSW", "SW", "WSW", "W", "WNW", "NW", "NNW"]

/-- degreesToDirection from WeatherService.ts: index
Math.round(degrees / 22.5) % 16 into the compass table.  JS % truncates
toward zero (Int.tmod) and indexing out of range yields undefined,
modelled as none. -/
def degreesToDirection (degrees : ℚ) : Option String :=
  let index : ℤ := Int.tmod (jsRound (degrees / 22.5)) 16
  if 0 ≤ index then directions.get? index.toNat else none

/-! ## Persistence adapter (src/services/StorageService.ts)

LocalStorage contents are modelled as an optional stored value: absent,
a string that is not valid JSON, or a JSON value.  JSON.stringify
followed by JSON.parse is the identity on the JSON values handled here
(objects, arrays, strings, finite numbers), so the round trip through
the serialized string is modelled at the level of JSON values. -/

/-- City from types/models.ts. -/
structure City where
  id : String
  name : String
  country : String
  lat : ℚ
  lon : ℚ
  addedAt : ℚ
deriving DecidableEq, Repr

/-- A JSON value. -/
inductive Json where
  | null : Json
  | bool (b : Bool) : Json
  | num (q : ℚ) : Json
  | str (s : String) : Json
  | arr (elems : List Json) : Json
  | obj (fields : List (String × Json)) : Json

/-- Property access on a JSON value: defined on objects, undefined
(none) elsewhere. -/
def Json.getField : Json → String → Option Json
  | .obj fields, key => List.lookup key fields
  | _, _ => none

/-- JSON encoding of a City, with the field order of the object
literals in WeatherWidget.vue / the City interface. -/
def encodeCity (c : City) : Json :=
  .obj [("id", .str c.id), ("name", .str c.name), ("country", .str c.country),
        ("coordinates", .obj [("lat", .num c.lat), ("lon", .num c.lon)]),
        ("addedAt", .num c.addedAt)]

/-- STORAGE_VERSION = 1. -/
def STORAGE_VERSION : ℚ := 1

/-- The envelope written by saveCities: version, cities, lastUpdated. -/
def encodeSchema (cities : List City) (lastUpdated : ℚ) : Json :=
  .obj [("version", .num STORAGE_VERSION),
        ("cities", .arr (cities.map encodeCity)),
        ("lastUpdated", .num lastUpdated)]

/-- The single-city validation of areValidCities: id, name, country are
strings, coordinates.lat and coordinates.lon are numbers, addedAt is a
number. -/
def isValidCityJson (j : Json) : Bool :=
  (match j.getField "id" with | some (.str _) => true | _ => false) &&
  (match j.getField "name" with | some (.str _) => true | _ => false) &&
  (match j.getField "country" with | some (.str _) => true | _ => false) &&
  (match (j.getField "coordinates").bind (fun c => c.getField "lat") with
   | some (.num _) => true | _ => false) &&
  (match (j.getField "coordinates").bind (fun c => c.getField "lon") with
   | some (.num _) => true | _ => false) &&
  (match j.getField "addedAt" with | some (.num _) => true | _ => false)

/-- isValidSchema from StorageService.ts: an object whose version and
lastUpdated are numbers and whose cities is an array of valid cities. -/
def isValidSchema (j : Json) : Bool :=
  (match j.getField "version" with | some (.num _) => true | _ => false) &&
  (match j.getField "cities" with | some (.arr _) => true | _ => false) &&
  (match j.getField "lastUpdated" with | some (.num _) => true | _ => false) &&
  (match j.getField "cities" with
   | some (.arr cities) => cities.all isValidCityJson
   | _ => false)

/-- Reading a City back out of its JSON form (the fields the rest of
the program consumes); undefined fields decode to none. -/
def decodeCity (j : Json) : Option City :=
  match j.getField "id", j.getField "name", j.getField "country",
      (j.getField "coordinates").bind (fun c => c.getField "lat"),
      (j.getField "coordinates").bind (fun c => c.getField "lon"),
      j.getField "addedAt" with
  | some (.str id), some (.str name), some (.str country),
      some (.num lat), some (.num lon), some (.num addedAt) =>
    some ⟨id, name, country, lat, lon, addedAt⟩
  | _, _, _, _, _, _ => none

/-- The contents of localStorage under the widget key. -/
inductive StoredValue where
  /-- The stored string is the empty string: falsy in JS, so the
  no-data early return of getCities applies, although JSON.parse would
  reject it. -/
  | emptyStr : StoredValue
  /-- A stored non-empty string that JSON.parse rejects. -/
  | badJson : StoredValue
  /-- A stored string that JSON.parse reads back as j. -/
  | json (j : Json) : StoredValue

/-- The stored record: none when absent. -/
def Stored := Option StoredValue

/-- saveCities from StorageService.ts (storage available, quota not
exceeded): write the envelope with version STORAGE_VERSION and the
current timestamp. -/
def saveCities (cities : List City) (now : ℚ) : Stored :=
  some (.json (encodeSchema cities now))

/-- getCities from StorageService.ts (storage available): returns the
decoded city list and the stored record afterwards.  Absent data — and,
through the falsy test on the stored string, an empty-string record,
which is returned from early and left in place — reads as the empty
list; a parse failure, an invalid schema or a version mismatch clears
the record and reads as the empty list. -/
def getCities (stored : Stored) : List City × Stored :=
  match stored with
  | none => ([], none)
  | some .emptyStr => ([], some .emptyStr)
  | some .badJson => ([], none)
  | some (.json j) =>
    if isValidSchema j then
      match j.getField "version", j.getField "cities" with
      | some (.num v), some (.arr cities) =>
        if v = STORAGE_VERSION then (cities.filterMap decodeCity, stored)
        else ([], none)
      | _, _ => ([], none)
    else ([], none)

/-! ## City-collection state machine (src/components/WeatherWidget.vue)

The component state is the in-memory city list plus the globalError
message.  Persistence happens after each mutation via saveCities and is
not part of this state. -/

/-- The widget state: the tracked-city list and the globalError ref. -/
structure WidgetState where
  cities : List City
  globalError : Option String
deriving DecidableEq, Repr

/-- removeCity from WeatherWidget.vue: refuse to remove the last city;
otherwise clear the error and filter out the targeted id. -/
def removeCity (st : WidgetState) (cityId : String) : WidgetState :=
  if st.cities.length == 1 then
    { st with globalError := some "Cannot remove the last city" }
  else
    { cities := st.cities.filter (fun c => c.id ≠ cityId), globalError := none }

/-- reorderCities from WeatherWidget.vue: clear the error and replace
the list wholesale with the given newOrder. -/
def reorderCities (_st : WidgetState) (newOrder : List City) : WidgetState :=
  { cities := newOrder, globalError := none }

/-- addCity from WeatherWidget.vue, with the weather-client validation
outcome (the retried getWeatherByCity call) abstracted as validation
and the city constructed from the coordinate fetch as newCity.  The
error is cleared on entry; a failed validation sets the user-friendly
message; a case-insensitive duplicate name sets the duplicate message
and leaves the list unchanged; otherwise the city is appended. -/
def addCity (st : WidgetState) (cityName : String)
    (validation : Except JSError Unit) (newCity : City) : WidgetState :=
  match validation with
  | .error e =>
    { st with globalError := some (getUserFriendlyMessage e) }
  | .ok _ =>
    if st.cities.any (fun c => jsToLower c.name == jsToLower cityName) then
      { st with globalError := some "This city is already in your list" }
    else
      { cities := st.cities ++ [newCity], globalError := none }

/-! ## Helper lemmas -/

/-- The full event trace of retryFrom on an operation that fails on
every attempt: for each non-final attempt a call, the onRetry callback
and the backoff wait; then the final call; the final error is surfaced. -/
theorem retryFrom_allFail (α : Type) (errs : ℕ → JSError) (d m : ℚ) :
    ∀ (fuel k : ℕ), 1 ≤ fuel →
      retryFrom (α := α) (fun j => .error (errs j)) d m fuel k =
        ((List.range (fuel - 1)).flatMap (fun i =>
            [.call (k + i), .retryCb (k + i) (errs (k + i)), .wait (d * m ^ (k + i - 1))]) ++
          [.call (k + (fuel - 1))],
         .error (.fromOp (errs (k + (fuel - 1))))) := by
  intro fuel
  induction fuel with
  | zero => intro k h; omega
  | succ f ih =>
    intro k _
    match f, ih with
    | 0, _ => simp [retryFrom]
    | f + 1, ih =>
      have hrec := ih (k + 1) (by omega)
      show retryFrom (fun j => .error (errs j)) d m (f + 2) k = _
      rw [retryFrom, hrec]
      simp only [Nat.add_sub_cancel, List.range_succ_eq_map, List.flatMap_cons,
        List.flatMap_map, Prod.mk.injEq, Nat.add_zero]
      have harg : ∀ i : ℕ, k + 1 + i = k + (i + 1) := by omega
      simp [harg]

/-! ## Claim theorems -/

/-- C4: for an operation failing on every attempt and any maxAttempts
n ≥ 1, retryWithBackoff invokes the operation exactly at attempts
1..n (no further attempt), invokes the observer callback with the
attempt number and the triggering error and then waits
delayMs·backoffMultiplier^(k−1) before attempt k+1 for every k < n,
and surfaces the failure of the final attempt unchanged. -/
theorem retry_allFail_trace (α : Type) (errs : ℕ → JSError) (n : ℕ) (hn : 1 ≤ n)
    (d m : ℚ) :
    retryWithBackoff (α := α) (fun j => .error (errs j)) ⟨(n : ℤ), d, m⟩ =
      ((List.range (n - 1)).flatMap (fun i =>
          [.call (i + 1), .retryCb (i + 1) (errs (i + 1)), .wait (d * m ^ i)]) ++
        [.call n],
       .error (.fromOp (errs n))) := by
  have h := retryFrom_allFail α errs d m n 1 hn
  have hton : ((n : ℤ)).toNat = n := Int.toNat_natCast n
  rw [retryWithBackoff]
  simp only [hton]
  rw [h]
  have h1 : 1 + (n - 1) = n := by omega
  have h2 : ∀ i : ℕ, 1 + i = i + 1 := by omega
  simp only [h1]
  refine Prod.ext ?_ rfl
  simp [h2]

/-- Witness for C4 at n = 3, delayMs = 1000, backoffMultiplier = 2:
three calls, callbacks before waits of 1000 ms and 2000 ms, and the
third failure surfaced unchanged. -/
theorem retry_allFail_trace_witness :
    retryWithBackoff (α := Unit) (fun _ => .error ⟨"Error", "boom"⟩)
        ⟨((3 : ℕ) : ℤ), 1000, 2⟩ =
      ([.call 1, .retryCb 1 ⟨"Error", "boom"⟩, .wait 1000,
        .call 2, .retryCb 2 ⟨"Error", "boom"⟩, .wait 2000, .call 3],
       .error (.fromOp ⟨"Error", "boom"⟩)) := by
  rw [retry_allFail_trace Unit (fun _ => ⟨"Error", "boom"⟩) 3 (by norm_num) 1000 2]
  norm_num [List.range_succ]

/-- C10: with maxAttempts ≤ 0 the loop of retryWithBackoff never runs:
the operation is never invoked (empty event trace) and the generic
Error with message All retry attempts failed is thrown. -/
theorem retry_nonpositive_maxAttempts (α : Type) (fn : ℕ → Except JSError α)
    (ma : ℤ) (hma : ma ≤ 0) (d m : ℚ) :
    retryWithBackoff fn ⟨ma, d, m⟩ =
      ([], .error (.generic "All retry attempts failed")) := by
  rw [retryWithBackoff]
  have h : ma.toNat = 0 := Int.toNat_of_nonpos hma
  simp only [h]
  rfl

/-- Witness for C10 at maxAttempts = 0. -/
theorem retry_nonpositive_maxAttempts_witness :
    retryWithBackoff (α := Unit) (fun _ => .ok ()) ⟨0, 1000, 2⟩ =
      ([], .error (.generic "All retry attempts failed")) :=
  retry_nonpositive_maxAttempts Unit (fun _ => .ok ()) 0 (by norm_num) 1000 2

/-- The Error thrown by the weather client on an HTTP 404. -/
def notFoundError : JSError :=
  ⟨"Error", "City not found. Please check the city name and try again."⟩

/-- The Error thrown by the weather client on an HTTP 401. -/
def invalidKeyError : JSError :=
  ⟨"Error", "Invalid API key. Please check your configuration."⟩

/-- C1: the 404 and 401 weather-lookup failures are classified
non-retryable by isTransientError, yet retryWithBackoff as used by
addCity (maxAttempts 3) invokes an operation failing with them three
times, not once, before surfacing the failure: retryWithBackoff never
consults the classifier. -/
theorem nonretryable_is_retried :
    isTransientError notFoundError = false ∧
    isTransientError invalidKeyError = false ∧
    countCalls (retryWithBackoff (α := Unit)
      (fun _ => .error notFoundError) ⟨3, 1000, 2⟩).1 = 3 ∧
    (retryWithBackoff (α := Unit)
      (fun _ => .error notFoundError) ⟨3, 1000, 2⟩).2 = .error (.fromOp notFoundError) ∧
    countCalls (retryWithBackoff (α := Unit)
      (fun _ => .error invalidKeyError) ⟨3, 1000, 2⟩).1 = 3 := by
  refine ⟨by decide, by decide, ?_, rfl, ?_⟩ <;> rfl

/-- C9 counterexample: the degree value 11.25 lies in the claimed
0°–11.25° range yet maps to NNE, not to N (Math.round rounds the half
up, so round(11.25 / 22.5) = 1). -/
theorem wind_direction_boundary_counterexample :
    (0 ≤ (11.25 : ℚ) ∧ (11.25 : ℚ) ≤ 11.25) ∧
    degreesToDirection 11.25 = some "NNE" ∧ "NNE" ≠ "N" := by
  refine ⟨by norm_num, ?_, by decide⟩
  norm_num [degreesToDirection, jsRound, directions] <;> decide

/-- C9 amended: degreesToDirection maps d to the compass label at index
round(d / 22.5) tmod 16; 0°, 90°, 180°, 270° and 360° map to N, E, S, W
and N, every degree in [0°, 11.25) maps to N, and every degree in
[348.75°, 360°] maps to N — the right boundary 11.25° itself maps to
NNE. -/
theorem wind_direction_amended :
    degreesToDirection 0 = some "N" ∧ degreesToDirection 90 = some "E" ∧
    degreesToDirection 180 = some "S" ∧ degreesToDirection 270 = some "W" ∧
    degreesToDirection 360 = some "N" ∧
    (∀ d : ℚ, 0 ≤ d → d < 11.25 → degreesToDirection d = some "N") ∧
    (∀ d : ℚ, 348.75 ≤ d → d ≤ 360 → degreesToDirection d = some "N") := by
  refine ⟨?_, ?_, ?_, ?_, ?_, ?_, ?_⟩
  · norm_num [degreesToDirection, jsRound, directions] <;> decide
  · norm_num [degreesToDirection, jsRound, directions] <;> decide
  · norm_num [degreesToDirection, jsRound, directions] <;> decide
  · norm_num [degreesToDirection, jsRound, directions] <;> decide
  · norm_num [degreesToDirection, jsRound, directions] <;> decide
  · intro d h0 h1
    have hdiv0 : 0 ≤ d / 22.5 := by positivity
    have hdiv1 : d / 22.5 < 1 / 2 := by
      rw [div_lt_iff (by norm_num : (0 : ℚ) < 22.5)]
      linarith
    have hfloor : jsRound (d / 22.5) = 0 := by
      rw [jsRound, Int.floor_eq_iff]
      constructor <;> push_cast <;> linarith
    simp [degreesToDirection, hfloor]
    decide
  · intro d h0 h1
    have hdiv0 : (15.5 : ℚ) ≤ d / 22.5 := by
      rw [le_div_iff (by norm_num : (0 : ℚ) < 22.5)]
      linarith
    have hdiv1 : d / 22.5 ≤ 16 := by
      rw [div_le_iff (by norm_num : (0 : ℚ) < 22.5)]
      linarith
    have hfloor : jsRound (d / 22.5) = 16 := by
      rw [jsRound, Int.floor_eq_iff]
      constructor <;> push_cast <;> linarith
    simp [degreesToDirection, hfloor]
    decide

/-- Witness for C9 amended, at 5° and 350°. -/
theorem wind_direction_amended_witness :
    degreesToDirection 5 = some "N" ∧ degreesToDirection 350 = some "N" :=
  ⟨wind_direction_amended.2.2.2.2.2.1 5 (by norm_num) (by norm_num),
   wind_direction_amended.2.2.2.2.2.2 350 (by norm_num) (by norm_num)⟩

/-- A concrete weather snapshot used in counterexamples and witnesses. -/
def sampleWeather : WeatherData :=
  ⟨"London-GB", 10, 9, "broken clouds", "04d", 5, "N", 0, 1012, 80, 7, 10, 0⟩

/-- A second, distinct concrete weather snapshot. -/
def sampleWeather2 : WeatherData :=
  ⟨"Paris-FR", 20, 19, "clear sky", "01d", 3, "E", 90, 1015, 50, 9, 10, 1⟩

/-- C3 counterexample: a snapshot stored at t = 0 is still served from
the cache at t = 600000 ms (exactly 10 minutes), with no fresh fetch,
because getFromCache discards only entries strictly older than the
TTL — the claim says a fresh fetch occurs at 10:00 exactly. -/
theorem cache_ttl_boundary_counterexample :
    (600000 : ℚ) - 0 ≥ 10 * 60 * 1000 ∧
    getFromCache (Cache.set [] (cityCacheKey "london") ⟨sampleWeather, 0⟩)
        (cityCacheKey "london") 600000 =
      (some sampleWeather, Cache.set [] (cityCacheKey "london") ⟨sampleWeather, 0⟩) ∧
    (getWeatherByCity (Cache.set [] (cityCacheKey "london") ⟨sampleWeather, 0⟩)
        600000 "london" sampleWeather2).2.2 = false := by
  refine ⟨by norm_num, ?_, ?_⟩ <;>
    simp [getWeatherByCity, getFromCache, Cache.set, Cache.get, Cache.del,
      CACHE_DURATION_MS, List.lookup] <;> norm_num

/-- getFromCache on a present entry within the TTL serves it. -/
theorem getFromCache_hit (cache : Cache) (key : String) (e : CacheEntry) (now : ℚ)
    (hget : Cache.get cache key = some e)
    (hle : now - e.timestamp ≤ CACHE_DURATION_MS) :
    getFromCache cache key now = (some e.data, cache) := by
  simp [getFromCache, hget, not_lt.mpr hle]

/-- getFromCache on an entry strictly older than the TTL deletes it. -/
theorem getFromCache_expired (cache : Cache) (key : String) (e : CacheEntry) (now : ℚ)
    (hget : Cache.get cache key = some e)
    (hgt : now - e.timestamp > CACHE_DURATION_MS) :
    getFromCache cache key now = (none, Cache.del cache key) := by
  simp [getFromCache, hget, hgt]

/-- getFromCache on an absent key leaves the cache unchanged. -/
theorem getFromCache_absent (cache : Cache) (key : String) (now : ℚ)
    (hget : Cache.get cache key = none) :
    getFromCache cache key now = (none, cache) := by
  simp [getFromCache, hget]

/-- getWeatherByCity on a cache miss fetches and stores the result. -/
theorem getWeatherByCity_miss (cache cache1 : Cache) (now : ℚ) (name : String)
    (w : WeatherData)
    (hmiss : getFromCache cache (cityCacheKey name) now = (none, cache1)) :
    getWeatherByCity cache now name w =
      (w, Cache.set cache1 (cityCacheKey name) ⟨w, now⟩, true) := by
  rw [getWeatherByCity, hmiss]

/-- getWeatherByCity on a cache hit returns the cached snapshot with no
fetch. -/
theorem getWeatherByCity_hit (cache cache1 : Cache) (now : ℚ) (name : String)
    (d w : WeatherData)
    (hhit : getFromCache cache (cityCacheKey name) now = (some d, cache1)) :
    getWeatherByCity cache now name w = (d, cache1, false) := by
  rw [getWeatherByCity, hhit]

/-- C3 amended: a cached entry is served while now − storedAt ≤ TTL
(600000 ms) and discarded — with a fresh fetch following in
getWeatherByCity — only when now − storedAt is strictly greater. -/
theorem cache_ttl_amended :
    (∀ (cache : Cache) (key : String) (e : CacheEntry) (now : ℚ),
        Cache.get cache key = some e →
        (now - e.timestamp ≤ CACHE_DURATION_MS →
            getFromCache cache key now = (some e.data, cache)) ∧
        (now - e.timestamp > CACHE_DURATION_MS →
            getFromCache cache key now = (none, Cache.del cache key))) ∧
    (∀ (cache cache1 : Cache) (now : ℚ) (name : String) (w : WeatherData),
        getFromCache cache (cityCacheKey name) now = (none, cache1) →
        getWeatherByCity cache now name w =
          (w, Cache.set cache1 (cityCacheKey name) ⟨w, now⟩, true)) := by
  constructor
  · intro cache key e now hget
    exact ⟨getFromCache_hit cache key e now hget, getFromCache_expired cache key e now hget⟩
  · intro cache cache1 now name w hmiss
    exact getWeatherByCity_miss cache cache1 now name w hmiss

/-- Witness for C3 amended: an entry stored at t = 0 is served at
t = 599999 and discarded at t = 600001; a lookup on the empty cache
fetches fresh. -/
theorem cache_ttl_amended_witness :
    getFromCache [(cityCacheKey "london", ⟨sampleWeather, 0⟩)]
        (cityCacheKey "london") 599999 =
      (some sampleWeather, [(cityCacheKey "london", ⟨sampleWeather, 0⟩)]) ∧
    getFromCache [(cityCacheKey "london", ⟨sampleWeather, 0⟩)]
        (cityCacheKey "london") 600001 =
      (none, Cache.del [(cityCacheKey "london", ⟨sampleWeather, 0⟩)] (cityCacheKey "london")) ∧
    getWeatherByCity [] 0 "london" sampleWeather =
      (sampleWeather, Cache.set [] (cityCacheKey "london") ⟨sampleWeather, 0⟩, true) :=
  ⟨((cache_ttl_amended.1 [(cityCacheKey "london", ⟨sampleWeather, 0⟩)]
      (cityCacheKey "london") ⟨sampleWeather, 0⟩ 599999 (by simp [Cache.get, List.lookup])).1
      (by norm_num [CACHE_DURATION_MS])),
   ((cache_ttl_amended.1 [(cityCacheKey "london", ⟨sampleWeather, 0⟩)]
      (cityCacheKey "london") ⟨sampleWeather, 0⟩ 600001 (by simp [Cache.get, List.lookup])).2
      (by norm_num [CACHE_DURATION_MS])),
   (cache_ttl_amended.2 [] [] 0 "london" sampleWeather rfl)⟩

/-- C8 counterexample: the inputs paris and space-paris are equal after
trimming and lowercasing, yet getWeatherByCity derives different cache
keys for them (the key lowercases but does not trim), so the second
call within the TTL performs a fresh fetch instead of hitting the
cache. -/
theorem city_key_trim_counterexample :
    jsToLower (jsTrim " paris") = jsToLower (jsTrim "paris") ∧
    cityCacheKey " paris" ≠ cityCacheKey "paris" ∧
    (getWeatherByCity ((getWeatherByCity [] 0 "paris" sampleWeather).2.1)
        1000 " paris" sampleWeather2).2.2 = true := by
  refine ⟨by decide, by decide, ?_⟩
  simp [getWeatherByCity, getFromCache, Cache.set, Cache.get, Cache.del,
    cityCacheKey, List.lookup]
  decide

/-- C8 amended: inputs equal after lowercasing (no trimming) derive the
same city cache key, so a second call within the TTL is served from the
cache without a fresh fetch; and a city-name key never collides with a
coordinate-pair key. -/
theorem city_key_amended :
    (∀ a b : String, jsToLower a = jsToLower b → cityCacheKey a = cityCacheKey b) ∧
    (∀ (a : String) (lat lon : ℚ), cityCacheKey a ≠ coordsCacheKey lat lon) ∧
    (∀ (a b : String) (cache : Cache) (t now : ℚ) (w w2 : WeatherData),
        jsToLower a = jsToLower b →
        Cache.get cache (cityCacheKey a) = none →
        now - t ≤ CACHE_DURATION_MS →
        getWeatherByCity ((getWeatherByCity cache t a w).2.1) now b w2 =
          (w, (getWeatherByCity cache t a w).2.1, false)) := by
  refine ⟨?_, ?_, ?_⟩
  · intro a b h
    rw [cityCacheKey, cityCacheKey, h]
  · intro a lat lon h
    have h2 := congrArg String.data h
    simp [cityCacheKey, coordsCacheKey, String.data_append] at h2
  · intro a b cache t now w w2 hab hmiss httl
    have hkey : cityCacheKey b = cityCacheKey a := by
      rw [cityCacheKey, cityCacheKey, hab]
    have hfirst : getWeatherByCity cache t a w =
        (w, Cache.set cache (cityCacheKey a) ⟨w, t⟩, true) :=
      getWeatherByCity_miss cache cache t a w
        (getFromCache_absent cache (cityCacheKey a) t hmiss)
    rw [hfirst]
    have hget : Cache.get (Cache.set cache (cityCacheKey a) ⟨w, t⟩) (cityCacheKey a) =
        some ⟨w, t⟩ := by
      simp [Cache.get, Cache.set, List.lookup]
    have hhit : getFromCache (Cache.set cache (cityCacheKey a) ⟨w, t⟩)
        (cityCacheKey b) now = (some w, Cache.set cache (cityCacheKey a) ⟨w, t⟩) := by
      rw [hkey]
      exact getFromCache_hit _ _ ⟨w, t⟩ now hget httl
    exact getWeatherByCity_hit _ _ now b w w2 hhit

/-- Witness for C8 amended at the inputs London and LONDON. -/
theorem city_key_amended_witness :
    cityCacheKey "London" = cityCacheKey "LONDON" ∧
    cityCacheKey "London" ≠ coordsCacheKey 51 0 ∧
    getWeatherByCity ((getWeatherByCity [] 0 "London" sampleWeather).2.1)
        1000 "LONDON" sampleWeather2 =
      (sampleWeather, (getWeatherByCity [] 0 "London" sampleWeather).2.1, false) :=
  ⟨city_key_amended.1 "London" "LONDON" (by decide),
   city_key_amended.2.1 "London" 51 0,
   city_key_amended.2.2 "London" "LONDON" [] 0 1000 sampleWeather sampleWeather2
     (by decide) rfl (by norm_num [CACHE_DURATION_MS])⟩

/-- Encoding a City and reading it back recovers every field. -/
theorem decodeCity_encodeCity (c : City) : decodeCity (encodeCity c) = some c := rfl

/-- An encoded City passes the per-city schema validation. -/
theorem isValidCityJson_encodeCity (c : City) : isValidCityJson (encodeCity c) = true := rfl

/-- The envelope written by saveCities passes isValidSchema. -/
theorem isValidSchema_encodeSchema (cities : List City) (now : ℚ) :
    isValidSchema (encodeSchema cities now) = true := by
  simp only [isValidSchema, encodeSchema, Json.getField, List.lookup]
  simp [List.all_eq_true]
  intro j hj
  exact isValidCityJson_encodeCity j

/-- C5: saving any list of cities and loading it back returns an equal
list — same ids, names, countries, coordinates and timestamps in the
same order — and leaves the stored record in place. -/
theorem storage_round_trip (cities : List City) (now : ℚ) :
    getCities (saveCities cities now) = (cities, saveCities cities now) := by
  have h1 : (encodeSchema cities now).getField "version" = some (.num STORAGE_VERSION) := rfl
  have h2 : (encodeSchema cities now).getField "cities" =
      some (.arr (cities.map encodeCity)) := rfl
  rw [saveCities]
  simp only [getCities, isValidSchema_encodeSchema cities now, if_true, h1, h2]
  rw [List.filterMap_map]
  have h : (decodeCity ∘ encodeCity) = some := funext fun c => decodeCity_encodeCity c
  simp [h, saveCities]

/-- C6 counterexample: a stored empty string is not valid JSON
(JSON.parse rejects it), yet getCities takes the falsy no-data early
return and leaves the record in place — a stale record remains,
refuting the claim that every such load clears the stored record. -/
theorem empty_string_record_not_cleared :
    getCities (some .emptyStr) = ([], some .emptyStr) ∧
    (some StoredValue.emptyStr : Stored) ≠ (none : Stored) := by
  refine ⟨rfl, ?_⟩
  intro h
  exact Option.noConfusion h

/-- C6 amended: loading never throws and returns the empty list for an
absent record, a record that is not valid JSON, a record failing schema
validation, or a record at an unexpected version; every such load also
clears the stored record, with one exception — a stored empty string is
treated as absent by the falsy no-data test and left in place. -/
theorem corrupt_storage_recovery_amended :
    getCities none = ([], none) ∧
    getCities (some .emptyStr) = ([], some .emptyStr) ∧
    getCities (some .badJson) = ([], none) ∧
    (∀ j : Json, isValidSchema j = false → getCities (some (.json j)) = ([], none)) ∧
    (∀ (j : Json) (v : ℚ) (cs : List Json),
        j.getField "version" = some (.num v) →
        j.getField "cities" = some (.arr cs) →
        v ≠ STORAGE_VERSION →
        getCities (some (.json j)) = ([], none)) := by
  refine ⟨rfl, rfl, rfl, ?_, ?_⟩
  · intro j h
    simp [getCities, h]
  · intro j v cs hv hc hne
    by_cases hval : isValidSchema j <;> simp [getCities, hval, hv, hc, hne]

/-- Witness for C6 amended: a null envelope fails validation; an
envelope at version 999 is a version mismatch; both load as the empty
list with the record cleared. -/
theorem corrupt_storage_recovery_amended_witness :
    getCities (some (.json Json.null)) = ([], none) ∧
    getCities (some (.json (Json.obj [("version", .num 999), ("cities", .arr []),
      ("lastUpdated", .num 0)]))) = ([], none) :=
  ⟨corrupt_storage_recovery_amended.2.2.2.1 Json.null rfl,
   corrupt_storage_recovery_amended.2.2.2.2
     (Json.obj [("version", .num 999), ("cities", .arr []), ("lastUpdated", .num 0)])
     999 [] rfl rfl (by norm_num [STORAGE_VERSION])⟩

/-- A concrete city used in counterexamples and witnesses. -/
def sampleCity : City := ⟨"London-GB-0", "London", "GB", 51.5, -0.1, 0⟩

/-- A second concrete city. -/
def sampleCity2 : City := ⟨"Paris-FR-1", "Paris", "FR", 48.9, 2.35, 1⟩

/-- C2 counterexample: reorderCities applies the supplied list without
any check, so a Reorder call with an empty list empties an initialized
non-empty in-memory list. -/
theorem reorder_empties_list_counterexample :
    ([sampleCity] : List City) ≠ [] ∧
    (reorderCities ⟨[sampleCity], none⟩ []).cities = [] := by
  exact ⟨by simp, rfl⟩

/-- C2 amended: Remove on a single-element list leaves the state
unchanged except for the error message; Remove on a non-empty list with
distinct ids and Add always leave the list non-empty; Reorder leaves
the list non-empty only when the supplied new order is non-empty (it
applies the given list unconditionally). -/
theorem nonempty_invariant_amended :
    (∀ (st : WidgetState) (cid : String), st.cities.length = 1 →
        removeCity st cid = { st with globalError := some "Cannot remove the last city" }) ∧
    (∀ (st : WidgetState) (cid : String), st.cities ≠ [] →
        (st.cities.map City.id).Nodup → (removeCity st cid).cities ≠ []) ∧
    (∀ (st : WidgetState) (name : String) (v : Except JSError Unit) (c : City),
        st.cities ≠ [] → (addCity st name v c).cities ≠ []) ∧
    (∀ (st : WidgetState) (newOrder : List City), newOrder ≠ [] →
        (reorderCities st newOrder).cities ≠ []) := by
  refine ⟨?_, ?_, ?_, ?_⟩
  · intro st cid h
    simp [removeCity, h]
  · intro st cid hne hnodup
    by_cases h1 : st.cities.length = 1
    · simpa [removeCity, h1] using hne
    · simp only [removeCity, h1]
      simp only [beq_iff_eq, h1, if_false]
      intro hempty
      rw [List.filter_eq_nil_iff] at hempty
      match hcs : st.cities, hne, h1, hnodup, hempty with
      | [a], hne, h1, _, _ => exact h1 rfl
      | a :: b :: t, _, _, hnodup, hempty =>
        have ha : a.id = cid := by
          have := hempty a (by simp)
          simpa using this
        have hb : b.id = cid := by
          have := hempty b (by simp)
          simpa using this
        simp only [List.map_cons, List.nodup_cons] at hnodup
        exact hnodup.1 (by simp [ha, hb])
  · intro st name v c hne
    match v with
    | .error e => simpa [addCity] using hne
    | .ok _ =>
      by_cases hdup : st.cities.any (fun c => jsToLower c.name == jsToLower name)
      · simpa [addCity, hdup] using hne
      · simp [addCity, hdup]
  · intro st newOrder h
    simpa [reorderCities] using h

/-- Witness for C2 amended, on concrete one- and two-city states. -/
theorem nonempty_invariant_amended_witness :
    removeCity ⟨[sampleCity], none⟩ "London-GB-0" =
      { cities := [sampleCity], globalError := some "Cannot remove the last city" } ∧
    (removeCity ⟨[sampleCity, sampleCity2], none⟩ "London-GB-0").cities ≠ [] ∧
    (addCity ⟨[sampleCity], none⟩ "Paris" (.ok ()) sampleCity2).cities ≠ [] ∧
    (reorderCities ⟨[sampleCity], none⟩ [sampleCity2]).cities ≠ [] :=
  ⟨nonempty_invariant_amended.1 ⟨[sampleCity], none⟩ "London-GB-0" rfl,
   nonempty_invariant_amended.2.1 ⟨[sampleCity, sampleCity2], none⟩ "London-GB-0"
     (by simp) (by decide),
   nonempty_invariant_amended.2.2.1 ⟨[sampleCity], none⟩ "Paris" (.ok ()) sampleCity2
     (by simp),
   nonempty_invariant_amended.2.2.2 ⟨[sampleCity], none⟩ [sampleCity2] (by simp)⟩

/-- C7: when the input name matches an existing city name
case-insensitively, addCity leaves the in-memory list unchanged and
reports the duplicate error (the weather-client validation of the name
having succeeded, as it does for a name already in the list). -/
theorem add_duplicate_rejected (st : WidgetState) (cityName : String) (newCity : City)
    (hdup : st.cities.any (fun c => jsToLower c.name == jsToLower cityName) = true) :
    addCity st cityName (.ok ()) newCity =
      { cities := st.cities, globalError := some "This city is already in your list" } := by
  simp [addCity, hdup]

/-- Witness for C7: adding LONDON to a list holding London. -/
theorem add_duplicate_rejected_witness :
    addCity ⟨[sampleCity], none⟩ "LONDON" (.ok ()) sampleCity2 =
      { cities := [sampleCity], globalError := some "This city is already in your list" } :=
  add_duplicate_rejected ⟨[sampleCity], none⟩ "LONDON" sampleCity2 (by decide)

end WeatherVision
